import Mathlib

/-!
A model of the dropspy drop-monitor session engine (package `dropspy`),
together with theorems about its start/stop/read protocol, its netlink
attribute decoding, and its packet-alert accessors.

Bytes are modelled as natural numbers (each byte below 256 on the wire);
the netlink attribute stream is the usual type-length-value encoding with
a 4-byte header (16-bit little-endian length including the header, 16-bit
little-endian type) and 4-byte alignment padding between records.
-/

namespace Dropspy

/-! ### Protocol schema constants (include/uapi/linux/net_dropmon.h) -/

def CMD_UNSPEC : Nat := 0
def CMD_ALERT : Nat := 1
def CMD_CONFIG : Nat := 2
def CMD_START : Nat := 3
def CMD_STOP : Nat := 4
def CMD_PACKET_ALERT : Nat := 5
def CMD_CONFIG_GET : Nat := 6
def CMD_CONFIG_NEW : Nat := 7
def CMD_STATS_GET : Nat := 8
def CMD_STATS_NEW : Nat := 9

def ATTR_UNSPEC : Nat := 0
def ATTR_ALERT_MODE : Nat := 1
def ATTR_PC : Nat := 2
def ATTR_SYMBOL : Nat := 3
def ATTR_IN_PORT : Nat := 4
def ATTR_TIMESTAMP : Nat := 5
def ATTR_PROTO : Nat := 6
def ATTR_PAYLOAD : Nat := 7
def ATTR_PAD : Nat := 8
def ATTR_TRUNC_LEN : Nat := 9
def ATTR_ORIG_LEN : Nat := 10
def ATTR_QUEUE_LEN : Nat := 11
def ATTR_STATS : Nat := 12
def ATTR_HW_STATS : Nat := 13
def ATTR_ORIGIN : Nat := 14
def ATTR_HW_TRAP_GROUP_NAME : Nat := 15
def ATTR_HW_TRAP_NAME : Nat := 16
def ATTR_HW_ENTRIES : Nat := 17
def ATTR_HW_ENTRY : Nat := 18
def ATTR_HW_TRAP_COUNT : Nat := 19
def ATTR_SW_DROPS : Nat := 20
def ATTR_HW_DROPS : Nat := 21

def GRP_ALERT : Nat := 1
def ALERT_MODE_SUMMARY : Nat := 0
def ALERT_MODE_PACKET : Nat := 1
def NATTR_PORT_NETDEV_IFINDEX : Nat := 0
def NATTR_PORT_NETDEV_NAME : Nat := 1
def ORIGIN_SW : Nat := 0
def ORIGIN_HW : Nat := 1

/-! ### Little-endian scalar encoding and the scalar attribute accessors

The netlink attribute decoder interprets a scalar attribute value by
width: the accessor for an n-byte scalar fails (sets the decoder's soft
error state) unless the value is exactly n bytes long. -/

def u16le (n : Nat) : List Nat := [n % 256, n / 256 % 256]

def u32le (n : Nat) : List Nat := u16le (n % 65536) ++ u16le (n / 65536 % 65536)

def u64le (n : Nat) : List Nat := u32le (n % 4294967296) ++ u32le (n / 4294967296 % 4294967296)

def u8val : List Nat → Option Nat
  | [a] => some a
  | _ => none

def u16val : List Nat → Option Nat
  | [a, b] => some (a + 256 * b)
  | _ => none

def u32val : List Nat → Option Nat
  | [a, b, c, d] => some (a + 256 * b + 65536 * c + 16777216 * d)
  | _ => none

def u64val : List Nat → Option Nat
  | [a, b, c, d, e, f, g, h] =>
    some (a + 256 * b + 65536 * c + 16777216 * d +
      4294967296 * (e + 256 * f + 65536 * g + 16777216 * h))
  | _ => none

/-! ### Type-length-value attribute records -/

/-- Round a length up to the 4-byte netlink attribute alignment. -/
def nlaAlign (n : Nat) : Nat := (n + 3) / 4 * 4

/-- Encode one attribute record: 16-bit little-endian total length
(4-byte header plus value), 16-bit little-endian type, value bytes,
zero padding up to the 4-byte alignment. This is what the attribute
encoder emits for each attribute. -/
def encodeAttr (t : Nat) (v : List Nat) : List Nat :=
  u16le (4 + v.length) ++ u16le t ++ v ++ List.replicate (nlaAlign v.length - v.length) 0

/-- Parse one attribute record off the front of a byte stream, returning
the record's (type, value) and the remaining stream. Fails when fewer
than 4 bytes remain, when the declared length is below the header size,
or when the declared length runs past the end of the stream (a truncated
record). The type is masked of the two high netlink flag bits, as the
decoder's type accessor does. -/
def parseOne : List Nat → Option ((Nat × List Nat) × List Nat)
  | b0 :: b1 :: b2 :: b3 :: rest =>
    let L := b0 + 256 * b1
    if L < 4 then none
    else if rest.length < L - 4 then none
    else some (((b2 + 256 * b3) % 16384, rest.take (L - 4)), rest.drop (nlaAlign L - 4))
  | _ => none

theorem parseOne_rest_lt {b : List Nat} {t : Nat} {v rest : List Nat}
    (h : parseOne b = some ((t, v), rest)) : rest.length < b.length := by
  match b with
  | [] => simp [parseOne] at h
  | [b0] => simp [parseOne] at h
  | [b0, b1] => simp [parseOne] at h
  | [b0, b1, b2] => simp [parseOne] at h
  | b0 :: b1 :: b2 :: b3 :: r =>
    simp only [parseOne] at h
    split at h
    · exact absurd h (by simp)
    · split at h
      · exact absurd h (by simp)
      · have hr : rest = r.drop (nlaAlign (b0 + 256 * b1) - 4) := by
          have := (Option.some.injEq _ _).mp h
          exact (congrArg Prod.snd this).symm
        subst hr
        simp only [List.length_drop, List.length_cons]
        omega

/-- Parse a whole byte stream as a sequence of attribute records; `none`
when the stream cannot be fully parsed as type-length-value records. -/
def parseAttrs (b : List Nat) : Option (List (Nat × List Nat)) :=
  if hb : b = [] then some []
  else
    match hp : parseOne b with
    | none => none
    | some ((t, v), rest) => (parseAttrs rest).map (fun l => (t, v) :: l)
termination_by b.length
decreasing_by exact parseOne_rest_lt hp

/-! ### Errors

Errors are identified by the operation that produced them (with the call
index for transport operations) and by the `fmt.Errorf` wrapping context
each caller adds around them. -/

inductive Err where
  | send (n : Nat)
  | recv (n : Nat) (timeout : Bool)
  | join (n : Nat)
  | leave (n : Nat)
  | malformed
  | dialFail
  | familyLookup
  | martian (groups : Nat)
  | wrap (ctx : String) (e : Err)
deriving DecidableEq, Repr

/-- Strip the `fmt.Errorf` wrapping contexts off an error, leaving the
failure that originally produced it. -/
def Err.base : Err → Err
  | .wrap _ e => e.base
  | e => e

/-- The `net.Error` timeout test performed by the read loop; only a
receive that failed by deadline expiry is a timeout. -/
def Err.isTimeout : Err → Bool
  | .recv _ t => t
  | _ => false

/-! ### decodeAlert -/

/-- The decoded nested ATTR_IN_PORT block: interface index and device
name, as stored by the nested decode callback. -/
structure PortAttrs where
  ifindex : Option Nat := none
  netdevName : Option (List Nat) := none
deriving DecidableEq, Repr

/-- The nested ATTR_IN_PORT decode loop. The callback passed to the
nested decoder always returns nil, so a malformed inner record or a
wrong-width inner scalar ends only this inner loop: the accessor stores
its zero result and iteration stops, keeping what was decoded so far. -/
def portLoop (b : List Nat) (acc : PortAttrs) : PortAttrs :=
  if hb : b = [] then acc
  else
    match hp : parseOne b with
    | none => acc
    | some ((t, v), rest) =>
      if t = NATTR_PORT_NETDEV_IFINDEX then
        match u32val v with
        | none => { acc with ifindex := some 0 }
        | some n => portLoop rest { acc with ifindex := some n }
      else if t = NATTR_PORT_NETDEV_NAME then
        portLoop rest { acc with netdevName := some v }
      else portLoop rest acc
termination_by b.length
decreasing_by
  · exact parseOne_rest_lt hp
  · exact parseOne_rest_lt hp
  · exact parseOne_rest_lt hp

/-- The attribute set decoded from a packet alert, one optional slot per
attribute key the decode loop stores (the Go map from attribute code to
value, keyed by the fixed set of codes the loop recognises; a repeated
key keeps the last-seen value). -/
structure AlertAttrs where
  pc : Option Nat := none
  symbol : Option (List Nat) := none
  inPort : Option PortAttrs := none
  timestamp : Option Nat := none
  proto : Option Nat := none
  payload : Option (List Nat) := none
  origLen : Option Nat := none
  origin : Option Nat := none
deriving DecidableEq, Repr

/-- The decode loop of `decodeAlert`: records are parsed and stored one
at a time; a malformed record or a wrong-width scalar sets the decoder's
error state, which ends the loop and makes `decodeAlert` return the
error (and no attribute set), via its final `dec.Err()` check. -/
def alertLoop (b : List Nat) (acc : AlertAttrs) : Except Err AlertAttrs :=
  if hb : b = [] then .ok acc
  else
    match hp : parseOne b with
    | none => .error .malformed
    | some ((t, v), rest) =>
      if t = ATTR_PC then
        match u64val v with
        | none => .error .malformed
        | some n => alertLoop rest { acc with pc := some n }
      else if t = ATTR_SYMBOL then alertLoop rest { acc with symbol := some v }
      else if t = ATTR_IN_PORT then alertLoop rest { acc with inPort := some (portLoop v {}) }
      else if t = ATTR_TIMESTAMP then
        match u64val v with
        | none => .error .malformed
        | some n => alertLoop rest { acc with timestamp := some n }
      else if t = ATTR_PROTO then
        match u16val v with
        | none => .error .malformed
        | some n => alertLoop rest { acc with proto := some n }
      else if t = ATTR_PAYLOAD then alertLoop rest { acc with payload := some v }
      else if t = ATTR_ORIG_LEN then
        match u32val v with
        | none => .error .malformed
        | some n => alertLoop rest { acc with origLen := some n }
      else if t = ATTR_ORIGIN then
        match u16val v with
        | none => .error .malformed
        | some n => alertLoop rest { acc with origin := some n }
      else alertLoop rest acc
termination_by b.length
decreasing_by
  all_goals exact parseOne_rest_lt hp

/-- `decodeAlert` from the source: decode a raw attribute stream into
the alert attribute set, or fail. -/
def decodeAlert (raw : List Nat) : Except Err AlertAttrs := alertLoop raw {}

/-- The processing of one already-parsed record by the alert decode
loop; `alertLoop` performs exactly this on each record it parses. -/
def alertStep (t : Nat) (v rest : List Nat) (acc : AlertAttrs) : Except Err AlertAttrs :=
  if t = ATTR_PC then
    match u64val v with
    | none => .error .malformed
    | some n => alertLoop rest { acc with pc := some n }
  else if t = ATTR_SYMBOL then alertLoop rest { acc with symbol := some v }
  else if t = ATTR_IN_PORT then alertLoop rest { acc with inPort := some (portLoop v {}) }
  else if t = ATTR_TIMESTAMP then
    match u64val v with
    | none => .error .malformed
    | some n => alertLoop rest { acc with timestamp := some n }
  else if t = ATTR_PROTO then
    match u16val v with
    | none => .error .malformed
    | some n => alertLoop rest { acc with proto := some n }
  else if t = ATTR_PAYLOAD then alertLoop rest { acc with payload := some v }
  else if t = ATTR_ORIG_LEN then
    match u32val v with
    | none => .error .malformed
    | some n => alertLoop rest { acc with origLen := some n }
  else if t = ATTR_ORIGIN then
    match u16val v with
    | none => .error .malformed
    | some n => alertLoop rest { acc with origin := some n }
  else alertLoop rest acc

/-! ### decodeConfig -/

/-- The configuration snapshot attribute set: alert mode, truncation
length, queue length. -/
structure ConfigAttrs where
  alertMode : Option Nat := none
  truncLen : Option Nat := none
  queueLen : Option Nat := none
deriving DecidableEq, Repr

/-- The decode loop of `decodeConfig`, storing the three configuration
keys and skipping every other record. -/
def configLoop (b : List Nat) (acc : ConfigAttrs) : Except Err ConfigAttrs :=
  if hb : b = [] then .ok acc
  else
    match hp : parseOne b with
    | none => .error .malformed
    | some ((t, v), rest) =>
      if t = ATTR_ALERT_MODE then
        match u8val v with
        | none => .error .malformed
        | some n => configLoop rest { acc with alertMode := some n }
      else if t = ATTR_TRUNC_LEN then
        match u32val v with
        | none => .error .malformed
        | some n => configLoop rest { acc with truncLen := some n }
      else if t = ATTR_QUEUE_LEN then
        match u32val v with
        | none => .error .malformed
        | some n => configLoop rest { acc with queueLen := some n }
      else configLoop rest acc
termination_by b.length
decreasing_by
  all_goals exact parseOne_rest_lt hp

/-- `decodeConfig` from the source. -/
def decodeConfig (raw : List Nat) : Except Err ConfigAttrs := configLoop raw {}

/-! ### The packet alert event model -/

/-- `PacketAlert` wraps the attribute set parsed from an alert message. -/
structure PacketAlert where
  attrs : AlertAttrs
deriving DecidableEq, Repr

/-- `PacketAlertFromRaw` decodes the raw bytes of an alert message. -/
def PacketAlertFromRaw (raw : List Nat) : Except Err PacketAlert :=
  match decodeAlert raw with
  | .error e => .error (.wrap "decode" e)
  | .ok m => .ok ⟨m⟩

/-- `Packet` returns the (truncated) raw bytes of the dropped packet, or
the empty sequence when the payload attribute is absent. -/
def PacketAlert.Packet (pa : PacketAlert) : List Nat := pa.attrs.payload.getD []

/-- `L3Packet` skips the 14-byte link-layer header of the payload. -/
def PacketAlert.L3Packet (pa : PacketAlert) : List Nat :=
  if pa.Packet.length ≤ 14 then [] else pa.Packet.drop 14

/-- `Symbol` returns the kernel symbol of the drop site (string modelled
as its byte sequence), or the empty string when absent. -/
def PacketAlert.Symbol (pa : PacketAlert) : List Nat := pa.attrs.symbol.getD []

/-- `PC` returns the program counter of the drop site, or 0 when absent. -/
def PacketAlert.PC (pa : PacketAlert) : Nat := pa.attrs.pc.getD 0

/-- `Proto` returns the layer-3 protocol, or 0 when absent. -/
def PacketAlert.Proto (pa : PacketAlert) : Nat := pa.attrs.proto.getD 0

/-- `Is4` is true if the dropped packet is an IPv4 packet. -/
def PacketAlert.Is4 (pa : PacketAlert) : Bool := pa.Proto == 2048

/-- `Is16` is true if the dropped packet is an IPv6 packet. -/
def PacketAlert.Is16 (pa : PacketAlert) : Bool := pa.Proto == 34525

/-- `Length` returns the original, non-truncated length of the dropped
packet, or 0 when absent. -/
def PacketAlert.Length (pa : PacketAlert) : Nat := pa.attrs.origLen.getD 0

/-- `Link` returns the interface index from the nested in-port block, or
0 when the block or its index entry is absent. -/
def PacketAlert.Link (pa : PacketAlert) : Nat :=
  match pa.attrs.inPort with
  | none => 0
  | some a => a.ifindex.getD 0

/-! ### The transport connection

The generic-netlink connection is modelled by an oracle fixing the
outcome of each successive transport call of each kind, and a connection
state counting the calls made so far and recording the trace of
performed actions. The session code is deterministic given the oracle. -/

/-- One received generic-netlink message: header command and payload. -/
structure GenlMsg where
  cmd : Nat
  data : List Nat
deriving DecidableEq, Repr

/-- Outcome of one blocking receive: a message list, or a failure that
either is or is not a timeout (the `net.Error` distinction). -/
inductive RecvRes where
  | ok (ms : List GenlMsg)
  | fail (timeout : Bool)
deriving DecidableEq, Repr

/-- The transport oracle: outcome of the n-th call of each kind. -/
structure Oracle where
  sendOk : Nat → Bool
  recvRes : Nat → RecvRes
  joinOk : Nat → Bool
  leaveOk : Nat → Bool

/-- One observable transport action, with its outcome. -/
inductive Action where
  | send (cmd : Nat) (fam : Nat) (data : List Nat) (ack : Bool) (ok : Bool)
  | recv (ok : Bool)
  | join (grp : Nat) (ok : Bool)
  | leave (grp : Nat) (ok : Bool)
  | setReadDeadline (d : Nat)
  | setReadBuffer (n : Nat)
deriving DecidableEq, Repr

/-- Connection state: how many calls of each kind were made, and the
trace of actions performed so far. -/
structure ConnState where
  sends : Nat := 0
  recvs : Nat := 0
  joins : Nat := 0
  leaves : Nat := 0
  trace : List Action := []
deriving DecidableEq, Repr

/-- A fresh connection. -/
def conn0 : ConnState := {}

def connSend (o : Oracle) (c : ConnState) (cmd fam : Nat) (data : List Nat) (ack : Bool) :
    ConnState × Option Err :=
  ({ c with sends := c.sends + 1,
            trace := c.trace ++ [.send cmd fam data ack (o.sendOk c.sends)] },
   if o.sendOk c.sends then none else some (.send c.sends))

def connRecv (o : Oracle) (c : ConnState) : ConnState × Except Err (List GenlMsg) :=
  match o.recvRes c.recvs with
  | .ok ms => ({ c with recvs := c.recvs + 1, trace := c.trace ++ [.recv true] }, .ok ms)
  | .fail t => ({ c with recvs := c.recvs + 1, trace := c.trace ++ [.recv false] },
      .error (.recv c.recvs t))

def connJoin (o : Oracle) (c : ConnState) (g : Nat) : ConnState × Option Err :=
  ({ c with joins := c.joins + 1, trace := c.trace ++ [.join g (o.joinOk c.joins)] },
   if o.joinOk c.joins then none else some (.join c.joins))

def connLeave (o : Oracle) (c : ConnState) (g : Nat) : ConnState × Option Err :=
  ({ c with leaves := c.leaves + 1, trace := c.trace ++ [.leave g (o.leaveOk c.leaves)] },
   if o.leaveOk c.leaves then none else some (.leave c.leaves))

/-! ### The session -/

/-- `Session` wraps the connection together with the resolved family and
multicast group identifiers (the transport handle itself lives in the
`ConnState`-plus-`Oracle` model above). -/
structure Session where
  fam : Nat
  group : Nat
deriving DecidableEq, Repr

/-- `req` sends one request message carrying a command and a raw
attribute payload to the session's family, with or without the
acknowledge flag. -/
def Session.req (s : Session) (o : Oracle) (c : ConnState) (cmd : Nat) (data : List Nat)
    (ack : Bool) : ConnState × Option Err :=
  connSend o c cmd s.fam data ack

/-- The attribute payload `setPacketMode` encodes: alert mode packet,
truncation length 100, queue length 4096. -/
def setPacketModeData : List Nat :=
  encodeAttr ATTR_ALERT_MODE [ALERT_MODE_PACKET] ++
  encodeAttr ATTR_TRUNC_LEN (u32le 100) ++
  encodeAttr ATTR_QUEUE_LEN (u32le 4096)

/-- The attribute payload `Start` and `Stop` encode: a flag attribute is
emitted only when its boolean is true. -/
def dropFlagsData (sw hw : Bool) : List Nat :=
  (if sw then encodeAttr ATTR_SW_DROPS [] else []) ++
  (if hw then encodeAttr ATTR_HW_DROPS [] else [])

/-- `setPacketMode`: an acknowledged CMD_CONFIG request carrying
`setPacketModeData`, followed by the receive of its acknowledgment. -/
def Session.setPacketMode (s : Session) (o : Oracle) (c : ConnState) : ConnState × Option Err :=
  match s.req o c CMD_CONFIG setPacketModeData true with
  | (c1, some e) => (c1, some (.wrap "req" e))
  | (c1, none) =>
    match connRecv o c1 with
    | (c2, .error e) => (c2, some (.wrap "req ack" e))
    | (c2, .ok _) => (c2, none)

/-- `Stop`: leave the alert group with the error discarded, then send an
unacknowledged CMD_STOP carrying the drop flags, never receiving. -/
def Session.Stop (s : Session) (o : Oracle) (c : ConnState) (sw hw : Bool) :
    ConnState × Option Err :=
  match s.req o (connLeave o c GRP_ALERT).1 CMD_STOP (dropFlagsData sw hw) false with
  | (c2, some e) => (c2, some (.wrap "req" e))
  | (c2, none) => (c2, none)

/-- `Start`: configure packet mode (acknowledged), send an acknowledged
CMD_START carrying the drop flags, receive its acknowledgment, join the
alert group; a failed acknowledgment or join triggers a best-effort
`Stop` whose own result is discarded, and the original error is
returned. -/
def Session.Start (s : Session) (o : Oracle) (c : ConnState) (sw hw : Bool) :
    ConnState × Option Err :=
  match s.setPacketMode o c with
  | (c1, some e) => (c1, some (.wrap "packet mode" e))
  | (c1, none) =>
    match s.req o c1 CMD_START (dropFlagsData sw hw) true with
    | (c2, some e) => (c2, some (.wrap "req" e))
    | (c2, none) =>
      match connRecv o c2 with
      | (c3, .error e) => ((s.Stop o c3 sw hw).1, some (.wrap "req ack" e))
      | (c3, .ok _) =>
        match connJoin o c3 GRP_ALERT with
        | (c4, some e) => ((s.Stop o c4 sw hw).1, some (.wrap "join" e))
        | (c4, none) => (c4, none)

/-- Outcome of a Go call that can also panic (index out of range). -/
inductive GoResult (α : Type) where
  | ok (a : α)
  | err (e : Err)
  | panicked
deriving DecidableEq, Repr

/-- `Config`: an unacknowledged CMD_CONFIG_GET request, one receive, and
a decode of the first received message's payload; the indexing of the
first message panics when the receive returns an empty message list. -/
def Session.Config (s : Session) (o : Oracle) (c : ConnState) :
    ConnState × GoResult ConfigAttrs :=
  match s.req o c CMD_CONFIG_GET [] false with
  | (c1, some e) => (c1, .err (.wrap "config" e))
  | (c1, none) =>
    match connRecv o c1 with
    | (c2, .error e) => (c2, .err (.wrap "config" e))
    | (c2, .ok ms) =>
      match ms with
      | [] => (c2, .panicked)
      | m :: _ =>
        match decodeConfig m.data with
        | .error e => (c2, .err (.wrap "config" e))
        | .ok conf => (c2, .ok conf)

/-! ### The read loop -/

/-- The inner loop of `ReadUntil` over one received message list: skip
messages whose command is not CMD_PACKET_ALERT, decode the rest and call
the callback on each. Returns the list of alerts the callback was
invoked on, and `none` to continue the outer loop, `some r` to return
`r` from `ReadUntil`. -/
def processMsgs (f : PacketAlert → Bool) :
    List GenlMsg → List PacketAlert → List PacketAlert × Option (Option Err)
  | [], log => (log, none)
  | m :: rest, log =>
    if m.cmd ≠ CMD_PACKET_ALERT then processMsgs f rest log
    else
      match PacketAlertFromRaw m.data with
      | .error e => (log, some (some (.wrap "parse alert packet" e)))
      | .ok pa =>
        if f pa then processMsgs f rest (log ++ [pa])
        else (log ++ [pa], some none)

/-- The outer loop of `ReadUntil`: set the read deadline when one is
given, receive, treat a timeout failure as successful termination and
any other failure as an error, and otherwise process the received
messages. `fuel` bounds the number of iterations modelled; `none` means
the loop was still running after `fuel` iterations. -/
def readLoop (s : Session) (o : Oracle) (f : PacketAlert → Bool) (deadline : Nat) :
    Nat → ConnState → List PacketAlert → Option (ConnState × List PacketAlert × Option Err)
  | 0, _, _ => none
  | fuel + 1, c, log =>
    let cd : ConnState := { c with
      trace := c.trace ++ (if deadline ≠ 0 then [Action.setReadDeadline deadline] else []) }
    match connRecv o cd with
    | (c1, .error e) =>
      if e.isTimeout then some (c1, log, none)
      else some (c1, log, some (.wrap "recv" e))
    | (c1, .ok ms) =>
      match processMsgs f ms log with
      | (log1, some r) => some (c1, log1, r)
      | (log1, none) => readLoop s o f deadline fuel c1 log1

/-- `ReadUntil`: set the receive buffer, then run the read loop until
the deadline elapses, the callback declines, or an error occurs. The
deadline is a point in time, 0 meaning none (read indefinitely). -/
def Session.ReadUntil (s : Session) (o : Oracle) (fuel : Nat) (c : ConnState) (deadline : Nat)
    (f : PacketAlert → Bool) : Option (ConnState × List PacketAlert × Option Err) :=
  readLoop s o f deadline fuel { c with trace := c.trace ++ [.setReadBuffer 4096] } []

/-! ### Session construction -/

/-- One multicast group of a generic-netlink family. -/
structure NlGroup where
  gid : Nat
deriving DecidableEq, Repr

/-- A resolved generic-netlink family: its identifier and groups. -/
structure NlFamily where
  fid : Nat
  groups : List NlGroup
deriving DecidableEq, Repr

/-- The discovery oracle: outcome of `genetlink.Dial` and of the NET_DM
family registry lookup. -/
structure DiscOracle where
  dialOk : Bool
  family : Except Err NlFamily

/-- `dropMonitorLookup`: resolve the NET_DM family, failing when the
lookup fails or when the family does not expose exactly one group;
otherwise return the family identifier and the single group's
identifier. -/
def dropMonitorLookup (o : DiscOracle) : Except Err (Nat × Nat) :=
  match o.family with
  | .error e => .error (.wrap "lookup" e)
  | .ok fam =>
    if h : fam.groups.length = 1 then
      .ok (fam.fid, (fam.groups.get ⟨0, by omega⟩).gid)
    else .error (.wrap "lookup" (.martian fam.groups.length))

/-- `NewSession`: dial generic netlink, perform discovery, and populate
the session's family and group identifiers from its result. -/
def NewSession (o : DiscOracle) : Except Err Session :=
  if o.dialOk then
    match dropMonitorLookup o with
    | .error e => .error (.wrap "session" e)
    | .ok fg => .ok { fam := fg.1, group := fg.2 }
  else .error (.wrap "session" .dialFail)

/-! ### The abstract monitoring state

Modelled from the spec: the Session's abstract state is *Monitoring*
when the multicast alert group is joined and kernel-side alerting is
enabled, and *Idle* when neither holds; group membership follows the
successful join/leave actions of the trace, and kernel alerting follows
the successfully sent CMD_START/CMD_STOP requests. -/

/-- Whether the socket is in the multicast group after a trace. -/
def joinedAfter (tr : List Action) : Bool :=
  tr.foldl (fun j a =>
    match a with
    | .join _ true => true
    | .leave _ true => false
    | _ => j) false

/-- Whether kernel-side alerting is enabled after a trace. -/
def alertingAfter (tr : List Action) : Bool :=
  tr.foldl (fun al a =>
    match a with
    | .send cmd _ _ _ true => if cmd = CMD_START then true else if cmd = CMD_STOP then false else al
    | _ => al) false

/-- The session is Idle after a trace. -/
def isIdle (tr : List Action) : Bool := !joinedAfter tr && !alertingAfter tr

/-- The session is Monitoring after a trace. -/
def isMonitoring (tr : List Action) : Bool := joinedAfter tr && alertingAfter tr

/-! ### Scalar encoding lemmas -/

theorem u16le_length (n : Nat) : (u16le n).length = 2 := rfl

theorem u32le_length (n : Nat) : (u32le n).length = 4 := rfl

theorem u64le_length (n : Nat) : (u64le n).length = 8 := rfl

theorem u16val_u16le (n : Nat) (h : n < 65536) : u16val (u16le n) = some n := by
  simp only [u16le, u16val, Option.some.injEq]
  omega

theorem u32val_u32le (n : Nat) (h : n < 4294967296) : u32val (u32le n) = some n := by
  simp only [u32le, u16le, List.cons_append, List.nil_append, u32val, Option.some.injEq]
  omega

theorem u64val_u64le (n : Nat) (h : n < 18446744073709551616) : u64val (u64le n) = some n := by
  simp only [u64le, u32le, u16le, List.cons_append, List.nil_append, u64val, Option.some.injEq]
  omega

/-! ### Record encoding and parsing lemmas -/

theorem parseOne_encodeAttr (t : Nat) (v rest : List Nat) (ht : t < 16384)
    (hv : v.length + 4 ≤ 65535) :
    parseOne (encodeAttr t v ++ rest) = some ((t, v), rest) := by
  simp only [encodeAttr, u16le, List.append_assoc, List.cons_append, List.nil_append, parseOne]
  have hL : (4 + v.length) % 256 + 256 * ((4 + v.length) / 256 % 256) = 4 + v.length := by omega
  have hT : (t % 256 + 256 * (t / 256 % 256)) % 16384 = t := by omega
  rw [hL, hT]
  have h1 : ¬ (4 + v.length < 4) := by omega
  rw [if_neg h1]
  have hlen : (v ++ (List.replicate (nlaAlign v.length - v.length) 0 ++ rest)).length =
      v.length + (nlaAlign v.length - v.length) + rest.length := by
    simp [List.length_append]
    omega
  have h2 : ¬ ((v ++ (List.replicate (nlaAlign v.length - v.length) 0 ++ rest)).length <
      4 + v.length - 4) := by
    rw [hlen]; omega
  rw [if_neg h2]
  have htake : (v ++ (List.replicate (nlaAlign v.length - v.length) 0 ++ rest)).take
      (4 + v.length - 4) = v := by
    have : 4 + v.length - 4 = v.length := by omega
    rw [this]
    exact List.take_left v _
  have hdrop : (v ++ (List.replicate (nlaAlign v.length - v.length) 0 ++ rest)).drop
      (nlaAlign (4 + v.length) - 4) = rest := by
    have hge : v.length ≤ nlaAlign v.length := by simp [nlaAlign]; omega
    have halign : nlaAlign (4 + v.length) - 4 = nlaAlign v.length := by simp [nlaAlign]; omega
    rw [halign, ← List.append_assoc]
    have hlen2 : (v ++ List.replicate (nlaAlign v.length - v.length) 0).length =
        nlaAlign v.length := by
      simp [List.length_append]
      omega
    have hd := List.drop_left (v ++ List.replicate (nlaAlign v.length - v.length) 0) rest
    rw [hlen2] at hd
    exact hd
  rw [htake, hdrop]

end Dropspy

namespace Dropspy

theorem encodeAttr_append_ne_nil (t : Nat) (v rest : List Nat) :
    ¬(encodeAttr t v ++ rest = []) := by
  simp [encodeAttr, u16le]

theorem alertLoop_nil (acc : AlertAttrs) : alertLoop [] acc = .ok acc := by
  rw [alertLoop.eq_def]
  simp

/-- Processing one well-formed ATTR_PC record stores the program counter
and continues. -/
theorem alertLoop_pc (n : Nat) (rest : List Nat) (acc : AlertAttrs)
    (h : n < 18446744073709551616) :
    alertLoop (encodeAttr ATTR_PC (u64le n) ++ rest) acc =
      alertLoop rest { acc with pc := some n } := by
  have hp := parseOne_encodeAttr ATTR_PC (u64le n) rest (by decide) (by simp [u64le_length])
  rw [alertLoop.eq_def, dif_neg (encodeAttr_append_ne_nil _ _ _)]
  split
  · rename_i heq
    rw [hp] at heq
    cases heq
  · rename_i t v r heq
    rw [hp] at heq
    simp only [Option.some.injEq, Prod.mk.injEq] at heq
    obtain ⟨⟨ht, hv⟩, hr⟩ := heq
    subst ht hv hr
    rw [if_pos rfl, u64val_u64le n h]

/-- Processing one ATTR_PAYLOAD record stores the payload bytes as-is
and continues. -/
theorem alertLoop_payload (v rest : List Nat) (acc : AlertAttrs)
    (hv : v.length + 4 ≤ 65535) :
    alertLoop (encodeAttr ATTR_PAYLOAD v ++ rest) acc =
      alertLoop rest { acc with payload := some v } := by
  have hp := parseOne_encodeAttr ATTR_PAYLOAD v rest (by decide) hv
  rw [alertLoop.eq_def, dif_neg (encodeAttr_append_ne_nil _ _ _)]
  split
  · rename_i heq
    rw [hp] at heq
    cases heq
  · rename_i t w r heq
    rw [hp] at heq
    simp only [Option.some.injEq, Prod.mk.injEq] at heq
    obtain ⟨⟨ht, hw⟩, hr⟩ := heq
    subst ht hw hr
    norm_num [ATTR_PAYLOAD, ATTR_PC, ATTR_SYMBOL, ATTR_IN_PORT, ATTR_TIMESTAMP, ATTR_PROTO]

end Dropspy

namespace Dropspy

/-! ### Claims about the packet alert accessors -/

/-- C7: every accessor returns its zero value when the corresponding
attribute is absent (empty string for Symbol, 0 for PC, Proto, Length
and Link, the empty byte sequence for Packet); and an alert decoded from
a message carrying only a program counter and a payload attribute yields
the empty Symbol, zero Length, and exactly the payload bytes from
Packet. -/
theorem claim_C7_absent_attribute_defaults :
    (∀ m : AlertAttrs, (PacketAlert.mk { m with symbol := none }).Symbol = []) ∧
    (∀ m : AlertAttrs, (PacketAlert.mk { m with pc := none }).PC = 0) ∧
    (∀ m : AlertAttrs, (PacketAlert.mk { m with proto := none }).Proto = 0) ∧
    (∀ m : AlertAttrs, (PacketAlert.mk { m with origLen := none }).Length = 0) ∧
    (∀ m : AlertAttrs, (PacketAlert.mk { m with inPort := none }).Link = 0) ∧
    (∀ m : AlertAttrs, (PacketAlert.mk { m with payload := none }).Packet = []) ∧
    (∀ (n : Nat) (payload : List Nat), n < 18446744073709551616 →
      payload.length + 4 ≤ 65535 →
      ∃ pa : PacketAlert,
        PacketAlertFromRaw (encodeAttr ATTR_PC (u64le n) ++ encodeAttr ATTR_PAYLOAD payload) =
          .ok pa ∧
        pa.Symbol = [] ∧ pa.Length = 0 ∧ pa.Packet = payload) := by
  refine ⟨fun m => rfl, fun m => rfl, fun m => rfl, fun m => rfl, fun m => rfl, fun m => rfl,
    fun n payload hn hpl => ?_⟩
  refine ⟨⟨{ pc := some n, payload := some payload }⟩, ?_, rfl, rfl, rfl⟩
  simp only [PacketAlertFromRaw, decodeAlert]
  rw [alertLoop_pc n _ _ hn,
    show encodeAttr ATTR_PAYLOAD payload = encodeAttr ATTR_PAYLOAD payload ++ []
      from (List.append_nil _).symm,
    alertLoop_payload _ _ _ hpl, alertLoop_nil]

/-- C7 witness: the concrete two-attribute message with program counter
4660 and payload bytes 9, 9, 9. -/
theorem claim_C7_absent_attribute_defaults_witness :
    ∃ pa : PacketAlert,
      PacketAlertFromRaw (encodeAttr ATTR_PC (u64le 4660) ++ encodeAttr ATTR_PAYLOAD [9, 9, 9]) =
        .ok pa ∧
      pa.Symbol = [] ∧ pa.Length = 0 ∧ pa.Packet = [9, 9, 9] :=
  claim_C7_absent_attribute_defaults.2.2.2.2.2.2 4660 [9, 9, 9] (by decide) (by decide)

/-- C8: L3Packet is the payload with its first 14 bytes removed when the
payload is longer than 14 bytes, and empty otherwise; a 10-byte payload
yields the empty sequence and a 20-byte payload yields bytes 14 to 19. -/
theorem claim_C8_l3packet_skip :
    (∀ pa : PacketAlert, pa.L3Packet = if 14 < pa.Packet.length then pa.Packet.drop 14 else []) ∧
    (PacketAlert.mk { payload := some (List.range 10) }).L3Packet = [] ∧
    (PacketAlert.mk { payload := some (List.range 20) }).L3Packet = [14, 15, 16, 17, 18, 19] := by
  refine ⟨fun pa => ?_, by decide, by decide⟩
  simp only [PacketAlert.L3Packet]
  rcases Nat.lt_or_ge 14 pa.Packet.length with h | h
  · rw [if_neg (by omega), if_pos h]
  · rw [if_pos (by omega), if_neg (by omega)]

/-- C9: Is4 holds exactly when the decoded protocol is 0x0800 and the
IPv6 test (spelled Is16 in the source) exactly when it is 0x86DD; an
absent protocol attribute satisfies neither. -/
theorem claim_C9_protocol_classifiers :
    (∀ pa : PacketAlert, pa.Is4 = true ↔ pa.Proto = 2048) ∧
    (∀ pa : PacketAlert, pa.Is16 = true ↔ pa.Proto = 34525) ∧
    (∀ m : AlertAttrs, (PacketAlert.mk { m with proto := none }).Is4 = false ∧
      (PacketAlert.mk { m with proto := none }).Is16 = false) := by
  refine ⟨fun pa => ?_, fun pa => ?_, fun m => ⟨rfl, rfl⟩⟩
  · simp [PacketAlert.Is4]
  · simp [PacketAlert.Is16]

/-! ### Claims about Config -/

/-- C10: Config panics on the indexing of the first received message
exactly when the request was sent and the receive succeeded with an
empty message list; any receive returning at least one message cannot
make it panic. -/
theorem claim_C10_config_empty_receive :
    ∀ (s : Session) (o : Oracle) (c : ConnState),
      (s.Config o c).2 = GoResult.panicked ↔
        (o.sendOk c.sends = true ∧ o.recvRes c.recvs = RecvRes.ok []) := by
  intro s o c
  simp only [Session.Config, Session.req, connSend, connRecv]
  cases hs : o.sendOk c.sends with
  | false => simp [hs]
  | true =>
    cases hr : o.recvRes c.recvs with
    | ok ms =>
      cases ms with
      | nil => simp [hs, hr]
      | cons m rest =>
        simp only [hs, hr, if_true]
        cases hdec : decodeConfig m.data <;> simp [hdec, hs, hr]
    | fail t => simp [hs, hr]

end Dropspy

namespace Dropspy

/-! ### Claims about session construction -/

/-- C5: NewSession fails when the family lookup fails or when the family
exposes a group count other than one, and on success populates the
session's family and group identifiers from the lookup result (the
fields are never assigned anywhere else; every later operation reads the
session immutably). -/
theorem claim_C5_newsession_discovery :
    (∀ o : DiscOracle, o.dialOk = false →
      NewSession o = .error (.wrap "session" .dialFail)) ∧
    (∀ (o : DiscOracle) (e : Err), o.dialOk = true → o.family = .error e →
      NewSession o = .error (.wrap "session" (.wrap "lookup" e))) ∧
    (∀ (o : DiscOracle) (fam : NlFamily), o.dialOk = true → o.family = .ok fam →
      fam.groups.length ≠ 1 →
      NewSession o = .error (.wrap "session" (.wrap "lookup" (.martian fam.groups.length)))) ∧
    (∀ (o : DiscOracle) (fid : Nat) (g : NlGroup), o.dialOk = true →
      o.family = .ok ⟨fid, [g]⟩ →
      NewSession o = .ok ⟨fid, g.gid⟩) := by
  refine ⟨fun o hd => ?_, fun o e hd hf => ?_, fun o fam hd hf hg => ?_,
    fun o fid g hd hf => ?_⟩
  · simp [NewSession, hd]
  · simp [NewSession, dropMonitorLookup, hd, hf]
  · simp [NewSession, dropMonitorLookup, hd, hf, hg]
  · simp [NewSession, dropMonitorLookup, hd, hf]

/-- C5 witness: a lookup returning family 25 with the single group 7
yields the session with those identifiers, and a two-group family is
rejected. -/
theorem claim_C5_newsession_discovery_witness :
    NewSession ⟨true, .ok ⟨25, [⟨7⟩]⟩⟩ = .ok ⟨25, 7⟩ ∧
    NewSession ⟨true, .ok ⟨25, [⟨7⟩, ⟨8⟩]⟩⟩ =
      .error (.wrap "session" (.wrap "lookup" (.martian 2))) :=
  ⟨claim_C5_newsession_discovery.2.2.2 ⟨true, .ok ⟨25, [⟨7⟩]⟩⟩ 25 ⟨7⟩ rfl rfl,
   claim_C5_newsession_discovery.2.2.1 ⟨true, .ok ⟨25, [⟨7⟩, ⟨8⟩]⟩⟩ ⟨25, [⟨7⟩, ⟨8⟩]⟩ rfl rfl
     (by decide)⟩

/-! ### Claims about Stop -/

/-- C3: Stop first leaves the alert group with any leave failure
swallowed (the result depends only on the stop send), then sends one
unacknowledged CMD_STOP carrying the drop flags and performs no receive;
two consecutive calls both succeed whenever their sends are delivered. -/
theorem claim_C3_stop_best_effort :
    ∀ (s : Session) (o : Oracle) (c : ConnState) (sw hw : Bool),
      (s.Stop o c sw hw).1.trace = c.trace ++
        [.leave GRP_ALERT (o.leaveOk c.leaves),
         .send CMD_STOP s.fam (dropFlagsData sw hw) false (o.sendOk c.sends)] ∧
      (s.Stop o c sw hw).2 =
        (if o.sendOk c.sends then none else some (.wrap "req" (.send c.sends))) ∧
      (s.Stop o c sw hw).1.recvs = c.recvs ∧
      (o.sendOk c.sends = true → o.sendOk (c.sends + 1) = true →
        (s.Stop o c sw hw).2 = none ∧ (s.Stop o (s.Stop o c sw hw).1 sw hw).2 = none) := by
  intro s o c sw hw
  refine ⟨?_, ?_, ?_, fun h1 h2 => ⟨?_, ?_⟩⟩ <;>
    cases hs : o.sendOk c.sends <;>
      simp_all [Session.Stop, Session.req, connSend, connLeave]

/-- C3 witness: from a fresh connection with a transport that delivers
every send, two consecutive Stop calls both return no error. -/
theorem claim_C3_stop_best_effort_witness :
    (Session.Stop ⟨20, 1⟩ ⟨fun _ => true, fun _ => .ok [], fun _ => true, fun _ => true⟩
        conn0 true false).2 = none ∧
    (Session.Stop ⟨20, 1⟩ ⟨fun _ => true, fun _ => .ok [], fun _ => true, fun _ => true⟩
        (Session.Stop ⟨20, 1⟩ ⟨fun _ => true, fun _ => .ok [], fun _ => true, fun _ => true⟩
          conn0 true false).1 true false).2 = none :=
  (claim_C3_stop_best_effort ⟨20, 1⟩
      ⟨fun _ => true, fun _ => .ok [], fun _ => true, fun _ => true⟩ conn0 true false).2.2.2
    rfl rfl

end Dropspy

namespace Dropspy

/-! ### Case analysis of the Start sequence from a fresh connection -/

theorem start_cfgSend_fail (s : Session) (o : Oracle) (sw hw : Bool)
    (h0 : o.sendOk 0 = false) :
    s.Start o conn0 sw hw =
      ({ sends := 1, recvs := 0, joins := 0, leaves := 0,
         trace := [.send CMD_CONFIG s.fam setPacketModeData true false] },
       some (.wrap "packet mode" (.wrap "req" (.send 0)))) := by
  simp [Session.Start, Session.setPacketMode, Session.req, connSend, conn0, h0]

theorem start_cfgAck_fail (s : Session) (o : Oracle) (sw hw : Bool) (t : Bool)
    (h0 : o.sendOk 0 = true) (h1 : o.recvRes 0 = .fail t) :
    s.Start o conn0 sw hw =
      ({ sends := 1, recvs := 1, joins := 0, leaves := 0,
         trace := [.send CMD_CONFIG s.fam setPacketModeData true true, .recv false] },
       some (.wrap "packet mode" (.wrap "req ack" (.recv 0 t)))) := by
  simp [Session.Start, Session.setPacketMode, Session.req, connSend, connRecv, conn0, h0, h1]

theorem start_startSend_fail (s : Session) (o : Oracle) (sw hw : Bool) (ms0 : List GenlMsg)
    (h0 : o.sendOk 0 = true) (h1 : o.recvRes 0 = .ok ms0) (h2 : o.sendOk 1 = false) :
    s.Start o conn0 sw hw =
      ({ sends := 2, recvs := 1, joins := 0, leaves := 0,
         trace := [.send CMD_CONFIG s.fam setPacketModeData true true, .recv true,
           .send CMD_START s.fam (dropFlagsData sw hw) true false] },
       some (.wrap "req" (.send 1))) := by
  simp [Session.Start, Session.setPacketMode, Session.req, connSend, connRecv, conn0,
    h0, h1, h2]

theorem start_startAck_fail (s : Session) (o : Oracle) (sw hw : Bool) (ms0 : List GenlMsg)
    (t : Bool) (h0 : o.sendOk 0 = true) (h1 : o.recvRes 0 = .ok ms0) (h2 : o.sendOk 1 = true)
    (h3 : o.recvRes 1 = .fail t) :
    s.Start o conn0 sw hw =
      ({ sends := 3, recvs := 2, joins := 0, leaves := 1,
         trace := [.send CMD_CONFIG s.fam setPacketModeData true true, .recv true,
           .send CMD_START s.fam (dropFlagsData sw hw) true true, .recv false,
           .leave GRP_ALERT (o.leaveOk 0),
           .send CMD_STOP s.fam (dropFlagsData sw hw) false (o.sendOk 2)] },
       some (.wrap "req ack" (.recv 1 t))) := by
  simp [Session.Start, Session.setPacketMode, Session.req, Session.Stop, connSend, connRecv,
    connLeave, conn0, h0, h1, h2, h3]
  cases o.sendOk 2 <;> simp

theorem start_join_fail (s : Session) (o : Oracle) (sw hw : Bool) (ms0 ms1 : List GenlMsg)
    (h0 : o.sendOk 0 = true) (h1 : o.recvRes 0 = .ok ms0) (h2 : o.sendOk 1 = true)
    (h3 : o.recvRes 1 = .ok ms1) (h4 : o.joinOk 0 = false) :
    s.Start o conn0 sw hw =
      ({ sends := 3, recvs := 2, joins := 1, leaves := 1,
         trace := [.send CMD_CONFIG s.fam setPacketModeData true true, .recv true,
           .send CMD_START s.fam (dropFlagsData sw hw) true true, .recv true,
           .join GRP_ALERT false, .leave GRP_ALERT (o.leaveOk 0),
           .send CMD_STOP s.fam (dropFlagsData sw hw) false (o.sendOk 2)] },
       some (.wrap "join" (.join 0))) := by
  simp [Session.Start, Session.setPacketMode, Session.req, Session.Stop, connSend, connRecv,
    connJoin, connLeave, conn0, h0, h1, h2, h3, h4]
  cases o.sendOk 2 <;> simp

theorem start_success (s : Session) (o : Oracle) (sw hw : Bool) (ms0 ms1 : List GenlMsg)
    (h0 : o.sendOk 0 = true) (h1 : o.recvRes 0 = .ok ms0) (h2 : o.sendOk 1 = true)
    (h3 : o.recvRes 1 = .ok ms1) (h4 : o.joinOk 0 = true) :
    s.Start o conn0 sw hw =
      ({ sends := 2, recvs := 2, joins := 1, leaves := 0,
         trace := [.send CMD_CONFIG s.fam setPacketModeData true true, .recv true,
           .send CMD_START s.fam (dropFlagsData sw hw) true true, .recv true,
           .join GRP_ALERT true] },
       none) := by
  simp [Session.Start, Session.setPacketMode, Session.req, connSend, connRecv,
    connJoin, conn0, h0, h1, h2, h3, h4]

end Dropspy

namespace Dropspy

/-- C1: from a fresh connection, Start performs in order the
acknowledged config request carrying alert mode packet with truncation
length 100 and queue length 4096, the acknowledged CMD_START request
carrying the drop flags, and the join of the alert group; a config-step
failure returns that error with no further action and no rollback, and
a failed start acknowledgment or group join triggers a best-effort Stop
while the original error, not the rollback's, is returned. -/
theorem claim_C1_start_sequence :
    (decodeConfig setPacketModeData =
      .ok { alertMode := some ALERT_MODE_PACKET, truncLen := some 100,
            queueLen := some 4096 }) ∧
    (∀ (s : Session) (o : Oracle) (sw hw : Bool) (ms0 ms1 : List GenlMsg),
      o.sendOk 0 = true → o.recvRes 0 = .ok ms0 → o.sendOk 1 = true →
      o.recvRes 1 = .ok ms1 → o.joinOk 0 = true →
      s.Start o conn0 sw hw =
        ({ sends := 2, recvs := 2, joins := 1, leaves := 0,
           trace := [.send CMD_CONFIG s.fam setPacketModeData true true, .recv true,
             .send CMD_START s.fam (dropFlagsData sw hw) true true, .recv true,
             .join GRP_ALERT true] },
         none)) ∧
    (∀ (s : Session) (o : Oracle) (sw hw : Bool),
      o.sendOk 0 = false →
      s.Start o conn0 sw hw =
        ({ sends := 1, recvs := 0, joins := 0, leaves := 0,
           trace := [.send CMD_CONFIG s.fam setPacketModeData true false] },
         some (.wrap "packet mode" (.wrap "req" (.send 0))))) ∧
    (∀ (s : Session) (o : Oracle) (sw hw : Bool) (t : Bool),
      o.sendOk 0 = true → o.recvRes 0 = .fail t →
      s.Start o conn0 sw hw =
        ({ sends := 1, recvs := 1, joins := 0, leaves := 0,
           trace := [.send CMD_CONFIG s.fam setPacketModeData true true, .recv false] },
         some (.wrap "packet mode" (.wrap "req ack" (.recv 0 t))))) ∧
    (∀ (s : Session) (o : Oracle) (sw hw : Bool) (ms0 : List GenlMsg),
      o.sendOk 0 = true → o.recvRes 0 = .ok ms0 → o.sendOk 1 = false →
      s.Start o conn0 sw hw =
        ({ sends := 2, recvs := 1, joins := 0, leaves := 0,
           trace := [.send CMD_CONFIG s.fam setPacketModeData true true, .recv true,
             .send CMD_START s.fam (dropFlagsData sw hw) true false] },
         some (.wrap "req" (.send 1)))) ∧
    (∀ (s : Session) (o : Oracle) (sw hw : Bool) (ms0 : List GenlMsg) (t : Bool),
      o.sendOk 0 = true → o.recvRes 0 = .ok ms0 → o.sendOk 1 = true →
      o.recvRes 1 = .fail t →
      s.Start o conn0 sw hw =
        ({ sends := 3, recvs := 2, joins := 0, leaves := 1,
           trace := [.send CMD_CONFIG s.fam setPacketModeData true true, .recv true,
             .send CMD_START s.fam (dropFlagsData sw hw) true true, .recv false,
             .leave GRP_ALERT (o.leaveOk 0),
             .send CMD_STOP s.fam (dropFlagsData sw hw) false (o.sendOk 2)] },
         some (.wrap "req ack" (.recv 1 t)))) ∧
    (∀ (s : Session) (o : Oracle) (sw hw : Bool) (ms0 ms1 : List GenlMsg),
      o.sendOk 0 = true → o.recvRes 0 = .ok ms0 → o.sendOk 1 = true →
      o.recvRes 1 = .ok ms1 → o.joinOk 0 = false →
      s.Start o conn0 sw hw =
        ({ sends := 3, recvs := 2, joins := 1, leaves := 1,
           trace := [.send CMD_CONFIG s.fam setPacketModeData true true, .recv true,
             .send CMD_START s.fam (dropFlagsData sw hw) true true, .recv true,
             .join GRP_ALERT false, .leave GRP_ALERT (o.leaveOk 0),
             .send CMD_STOP s.fam (dropFlagsData sw hw) false (o.sendOk 2)] },
         some (.wrap "join" (.join 0)))) := by
  refine ⟨?_, fun s o sw hw ms0 ms1 h0 h1 h2 h3 h4 => start_success s o sw hw ms0 ms1 h0 h1 h2 h3 h4,
    fun s o sw hw h0 => start_cfgSend_fail s o sw hw h0,
    fun s o sw hw t h0 h1 => start_cfgAck_fail s o sw hw t h0 h1,
    fun s o sw hw ms0 h0 h1 h2 => start_startSend_fail s o sw hw ms0 h0 h1 h2,
    fun s o sw hw ms0 t h0 h1 h2 h3 => start_startAck_fail s o sw hw ms0 t h0 h1 h2 h3,
    fun s o sw hw ms0 ms1 h0 h1 h2 h3 h4 => start_join_fail s o sw hw ms0 ms1 h0 h1 h2 h3 h4⟩
  simp [setPacketModeData, decodeConfig, configLoop, parseOne, encodeAttr, u16le, u32le,
    nlaAlign, u8val, u32val, ATTR_ALERT_MODE, ATTR_TRUNC_LEN, ATTR_QUEUE_LEN, ALERT_MODE_PACKET]

/-- C1 witness: a transport delivering both requests and both
acknowledgments but refusing the group join makes Start perform the
whole sequence, roll back with a best-effort Stop, and return the join
error. -/
theorem claim_C1_start_sequence_witness :
    Session.Start ⟨20, 1⟩
        ⟨fun _ => true, fun _ => .ok [], fun _ => false, fun _ => true⟩ conn0 true false =
      ({ sends := 3, recvs := 2, joins := 1, leaves := 1,
         trace := [.send CMD_CONFIG 20 setPacketModeData true true, .recv true,
           .send CMD_START 20 (dropFlagsData true false) true true, .recv true,
           .join GRP_ALERT false, .leave GRP_ALERT true,
           .send CMD_STOP 20 (dropFlagsData true false) false true] },
       some (.wrap "join" (.join 0))) :=
  claim_C1_start_sequence.2.2.2.2.2.2 ⟨20, 1⟩
    ⟨fun _ => true, fun _ => .ok [], fun _ => false, fun _ => true⟩ true false [] []
    rfl rfl rfl rfl rfl

end Dropspy

namespace Dropspy

/-- C4 counterexample: with a transport that accepts the config and
start requests and their acknowledgments, refuses the group join, and
then loses the rollback's CMD_STOP send, Start fails at the join step
yet the session afterwards is neither Idle nor Monitoring: kernel
alerting was enabled by the successfully sent CMD_START and the failed
best-effort rollback never disabled it, while the group was never
joined. -/
theorem claim_C4_counterexample :
    (Session.Start ⟨20, 1⟩
        ⟨fun n => n != 2, fun _ => .ok [], fun _ => false, fun _ => true⟩
        conn0 true false).2 = some (.wrap "join" (.join 0)) ∧
    isIdle (Session.Start ⟨20, 1⟩
        ⟨fun n => n != 2, fun _ => .ok [], fun _ => false, fun _ => true⟩
        conn0 true false).1.trace = false ∧
    isMonitoring (Session.Start ⟨20, 1⟩
        ⟨fun n => n != 2, fun _ => .ok [], fun _ => false, fun _ => true⟩
        conn0 true false).1.trace = false := by
  refine ⟨?_, ?_, ?_⟩ <;> rfl

/-- C4 as amended: from a fresh connection, Start returns success
exactly when the session is Monitoring afterwards (all three steps
succeeded); and when the group join fails, a best-effort Stop runs and
the session is Idle afterwards provided the rollback's CMD_STOP send is
delivered (a lost rollback send can leave kernel alerting enabled). -/
theorem claim_C4_amended_two_states :
    ∀ (s : Session) (o : Oracle) (sw hw : Bool),
      ((s.Start o conn0 sw hw).2 = none ↔
        isMonitoring (s.Start o conn0 sw hw).1.trace = true) ∧
      (∀ ms0 ms1 : List GenlMsg,
        o.sendOk 0 = true → o.recvRes 0 = .ok ms0 → o.sendOk 1 = true →
        o.recvRes 1 = .ok ms1 → o.joinOk 0 = false → o.sendOk 2 = true →
        isIdle (s.Start o conn0 sw hw).1.trace = true ∧
        (s.Start o conn0 sw hw).2 = some (.wrap "join" (.join 0))) := by
  intro s o sw hw
  constructor
  · cases h0 : o.sendOk 0 with
    | false =>
      rw [start_cfgSend_fail s o sw hw h0]
      simp [isMonitoring, joinedAfter, alertingAfter]
    | true =>
      cases h1 : o.recvRes 0 with
      | fail t =>
        rw [start_cfgAck_fail s o sw hw t h0 h1]
        simp [isMonitoring, joinedAfter, alertingAfter]
      | ok ms0 =>
        cases h2 : o.sendOk 1 with
        | false =>
          rw [start_startSend_fail s o sw hw ms0 h0 h1 h2]
          simp [isMonitoring, joinedAfter, alertingAfter]
        | true =>
          cases h3 : o.recvRes 1 with
          | fail t =>
            rw [start_startAck_fail s o sw hw ms0 t h0 h1 h2 h3]
            cases hl : o.leaveOk 0 <;> cases hs2 : o.sendOk 2 <;>
              simp [isMonitoring, joinedAfter, alertingAfter, CMD_CONFIG, CMD_START, CMD_STOP]
          | ok ms1 =>
            cases h4 : o.joinOk 0 with
            | false =>
              rw [start_join_fail s o sw hw ms0 ms1 h0 h1 h2 h3 h4]
              cases hl : o.leaveOk 0 <;> cases hs2 : o.sendOk 2 <;>
                simp [isMonitoring, joinedAfter, alertingAfter, CMD_CONFIG, CMD_START, CMD_STOP]
            | true =>
              rw [start_success s o sw hw ms0 ms1 h0 h1 h2 h3 h4]
              simp [isMonitoring, joinedAfter, alertingAfter, CMD_CONFIG, CMD_START, CMD_STOP]
  · intro ms0 ms1 h0 h1 h2 h3 h4 h5
    rw [start_join_fail s o sw hw ms0 ms1 h0 h1 h2 h3 h4]
    cases hl : o.leaveOk 0 <;>
      simp [isIdle, joinedAfter, alertingAfter, CMD_CONFIG, CMD_START, CMD_STOP, h5]

/-- C4 amended witness: with every send delivered but the join refused,
Start from a fresh connection leaves the session Idle and reports the
join failure. -/
theorem claim_C4_amended_two_states_witness :
    isIdle (Session.Start ⟨30, 1⟩
        ⟨fun _ => true, fun _ => .ok [], fun _ => false, fun _ => true⟩
        conn0 false true).1.trace = true ∧
    (Session.Start ⟨30, 1⟩
        ⟨fun _ => true, fun _ => .ok [], fun _ => false, fun _ => true⟩
        conn0 false true).2 = some (.wrap "join" (.join 0)) :=
  (claim_C4_amended_two_states ⟨30, 1⟩
      ⟨fun _ => true, fun _ => .ok [], fun _ => false, fun _ => true⟩ false true).2 [] []
    rfl rfl rfl rfl rfl rfl

end Dropspy

namespace Dropspy

/-! ### Unfolding lemmas for the record parser and decode loop -/

theorem parseAttrs_eq_none (b : List Nat) (hb : ¬b = []) (hp : parseOne b = none) :
    parseAttrs b = none := by
  rw [parseAttrs.eq_def, dif_neg hb]
  split
  · rfl
  · rename_i t v rest heq
    rw [hp] at heq
    cases heq

theorem parseAttrs_cons (b : List Nat) (t : Nat) (v rest : List Nat) (hb : ¬b = [])
    (hp : parseOne b = some ((t, v), rest)) :
    parseAttrs b = (parseAttrs rest).map (fun l => (t, v) :: l) := by
  rw [parseAttrs.eq_def, dif_neg hb]
  split
  · rename_i heq
    rw [hp] at heq
    cases heq
  · rename_i t2 v2 r2 heq
    rw [hp] at heq
    simp only [Option.some.injEq, Prod.mk.injEq] at heq
    obtain ⟨⟨ht, hv⟩, hr⟩ := heq
    subst ht
    subst hv
    subst hr
    rfl

theorem alertLoop_malformed (b : List Nat) (acc : AlertAttrs) (hb : ¬b = [])
    (hp : parseOne b = none) : alertLoop b acc = .error .malformed := by
  rw [alertLoop.eq_def, dif_neg hb]
  split
  · rfl
  · rename_i t v rest heq
    rw [hp] at heq
    cases heq

theorem alertLoop_step_eq (b : List Nat) (t : Nat) (v rest : List Nat) (acc : AlertAttrs)
    (hb : ¬b = []) (hp : parseOne b = some ((t, v), rest)) :
    alertLoop b acc = alertStep t v rest acc := by
  rw [alertLoop.eq_def, dif_neg hb]
  split
  · rename_i heq
    rw [hp] at heq
    cases heq
  · rename_i t2 v2 r2 heq
    rw [hp] at heq
    simp only [Option.some.injEq, Prod.mk.injEq] at heq
    obtain ⟨⟨ht, hv⟩, hr⟩ := heq
    subst ht
    subst hv
    subst hr
    rfl

/-- When the stream has no full type-length-value parse, the alert
decode loop ends in the malformed error from any accumulator. -/
theorem alertLoop_error_of_parse_none :
    ∀ (n : Nat) (b : List Nat), b.length ≤ n → ∀ acc : AlertAttrs, parseAttrs b = none →
      alertLoop b acc = .error .malformed := by
  intro n
  induction n with
  | zero =>
    intro b hb acc h
    have hbe : b = [] := by
      cases b with
      | nil => rfl
      | cons x xs => simp at hb
    subst hbe
    rw [parseAttrs.eq_def] at h
    simp at h
  | succ n ih =>
    intro b hb acc h
    by_cases hbe : b = []
    · subst hbe
      rw [parseAttrs.eq_def] at h
      simp at h
    · cases hp : parseOne b with
      | none => exact alertLoop_malformed b acc hbe hp
      | some tvr =>
        obtain ⟨⟨t, v⟩, rest⟩ := tvr
        have hlt : rest.length < b.length := parseOne_rest_lt hp
        have hrest : parseAttrs rest = none := by
          rw [parseAttrs_cons b t v rest hbe hp] at h
          exact Option.map_eq_none'.mp h
        have ihr : ∀ acc2 : AlertAttrs, alertLoop rest acc2 = .error .malformed :=
          fun acc2 => ih rest (by omega) acc2 hrest
        rw [alertLoop_step_eq b t v rest acc hbe hp]
        simp only [alertStep]
        split_ifs
        all_goals
          first
            | rfl
            | apply ihr
            | (cases u64val v with
                | none => rfl
                | some nn => apply ihr)
            | (cases u16val v with
                | none => rfl
                | some nn => apply ihr)
            | (cases u32val v with
                | none => rfl
                | some nn => apply ihr)

/-- C6: a stream that cannot be fully parsed as type-length-value
records (in particular one with a truncated declared record length)
makes decodeAlert return an error and no attribute set at all; it never
returns a set partially populated with the records that preceded the
truncation point. -/
theorem claim_C6_truncated_record_no_partial_set :
    ∀ raw : List Nat, parseAttrs raw = none → decodeAlert raw = .error .malformed :=
  fun raw h => alertLoop_error_of_parse_none raw.length raw le_rfl {} h

/-- C6 witness: a well-formed program-counter record followed by a
record declaring length 8 with only 4 bytes on the wire. -/
theorem claim_C6_truncated_record_no_partial_set_witness :
    parseAttrs (encodeAttr ATTR_PC (u64le 7) ++ [8, 0, 2, 0]) = none ∧
    decodeAlert (encodeAttr ATTR_PC (u64le 7) ++ [8, 0, 2, 0]) = .error .malformed :=
  ⟨by simp [parseAttrs, parseOne, encodeAttr, u16le, u64le, u32le, nlaAlign, ATTR_PC],
   claim_C6_truncated_record_no_partial_set _
     (by simp [parseAttrs, parseOne, encodeAttr, u16le, u64le, u32le, nlaAlign, ATTR_PC])⟩

end Dropspy

namespace Dropspy

/-- Messages whose command is not CMD_PACKET_ALERT are skipped without
invoking the callback. -/
theorem processMsgs_skip (f : PacketAlert → Bool) :
    ∀ (ms : List GenlMsg) (log : List PacketAlert),
      (∀ m ∈ ms, m.cmd ≠ CMD_PACKET_ALERT) → processMsgs f ms log = (log, none) := by
  intro ms
  induction ms with
  | nil => intro log h; rfl
  | cons m rest ih =>
    intro log h
    have hm : m.cmd ≠ CMD_PACKET_ALERT := h m (by simp)
    rw [processMsgs, if_pos hm]
    exact ih log (fun x hx => h x (by simp [hx]))

/-- C2: the read loop returns success with the callback uninvoked on a
timed-out receive (the behaviour of a deadline already in the past);
returns the wrapped receive error on any non-timeout receive failure;
silently discards messages whose command is not CMD_PACKET_ALERT
without invoking the callback; returns success right after the callback
declines an alert; and surfaces a decode failure of an alert message as
an error. The second component of the result is the list of alerts the
callback was invoked on, in order. -/
theorem claim_C2_readuntil_loop :
    ∀ (s : Session) (o : Oracle) (c : ConnState) (d : Nat) (f : PacketAlert → Bool)
      (fuel : Nat),
      (o.recvRes c.recvs = .fail true →
        Option.map (fun r => r.2) (s.ReadUntil o (fuel + 1) c d f) = some ([], none)) ∧
      (o.recvRes c.recvs = .fail false →
        Option.map (fun r => r.2) (s.ReadUntil o (fuel + 1) c d f) =
          some ([], some (.wrap "recv" (.recv c.recvs false)))) ∧
      (∀ ms : List GenlMsg, o.recvRes c.recvs = .ok ms →
        (∀ m ∈ ms, m.cmd ≠ CMD_PACKET_ALERT) → o.recvRes (c.recvs + 1) = .fail true →
        Option.map (fun r => r.2) (s.ReadUntil o (fuel + 2) c d f) = some ([], none)) ∧
      (∀ (m : GenlMsg) (rest : List GenlMsg) (pa : PacketAlert),
        o.recvRes c.recvs = .ok (m :: rest) → m.cmd = CMD_PACKET_ALERT →
        PacketAlertFromRaw m.data = .ok pa → f pa = false →
        Option.map (fun r => r.2) (s.ReadUntil o (fuel + 1) c d f) = some ([pa], none)) ∧
      (∀ (m : GenlMsg) (rest : List GenlMsg) (e : Err),
        o.recvRes c.recvs = .ok (m :: rest) → m.cmd = CMD_PACKET_ALERT →
        PacketAlertFromRaw m.data = .error e →
        Option.map (fun r => r.2) (s.ReadUntil o (fuel + 1) c d f) =
          some ([], some (.wrap "parse alert packet" e))) := by
  intro s o c d f fuel
  refine ⟨fun h => ?_, fun h => ?_, fun ms h hskip h2 => ?_, fun m rest pa h hm hpa hf => ?_,
    fun m rest e h hm hpa => ?_⟩
  · simp [Session.ReadUntil, readLoop, connRecv, h, Err.isTimeout]
  · simp [Session.ReadUntil, readLoop, connRecv, h, Err.isTimeout]
  · simp [Session.ReadUntil, readLoop, connRecv, h, h2, Err.isTimeout,
      processMsgs_skip f ms _ hskip]
  · simp [Session.ReadUntil, readLoop, connRecv, h, processMsgs, hm, hpa, hf]
  · simp [Session.ReadUntil, readLoop, connRecv, h, processMsgs, hm, hpa]

/-- C2 witness: a transport whose first receive times out (a deadline
already in the past) makes ReadUntil return success with the callback
invoked zero times. -/
theorem claim_C2_readuntil_loop_witness :
    Option.map (fun r => r.2)
        (Session.ReadUntil ⟨20, 1⟩
          ⟨fun _ => true, fun _ => .fail true, fun _ => true, fun _ => true⟩
          1 conn0 5 (fun _ => true)) = some ([], none) :=
  (claim_C2_readuntil_loop ⟨20, 1⟩
      ⟨fun _ => true, fun _ => .fail true, fun _ => true, fun _ => true⟩
      conn0 5 (fun _ => true) 0).1 rfl

end Dropspy
